import Mathlib

/-! Verification of the HSBC_RealEstate training/scoring pipeline.

Shallow embedding of `src/app/hpml_train.py` and `src/app/evaluate.py`.

Modelling conventions:
* A pandas `DataFrame` is a list of named columns of rational values
  (the numeric work is exact here; the claims under study are about
  column governance, control flow and the arithmetic-mean/MAE formulas,
  none of which depend on floating-point rounding).
* The opaque sklearn pipeline (fit + predict) is a parameter
  `fitPredict` of the trainer and `predict` of the scorer: the spec
  treats these numeric primitives as black boxes with documented
  contracts.  `mean_absolute_error` is embedded by its documented
  contract (mean of absolute differences), since `hpml_train` calls it
  on data it constructs itself.
* Coefficient extraction (step 9 of `hpml_train`, a `try/except` block)
  is a parameter `coefExtract : Option _`; `none` models the extraction
  raising and being caught.
* Fallible operations return `Except`; a training / scoring run that
  returns `.error e` writes no artifact (the artifacts only exist in
  the `.ok` payload), mirroring the fact that the Python exceptions are
  raised before any file write.
-/

namespace HSBC

/-! ## String helpers (ASCII lowercase and substring containment)

`c.lower()` and Python's `p in s` substring test, for the ASCII names
this program works with. -/

/-- ASCII lowercase of one character, as `str.lower` acts on ASCII. -/
def lowerChar (c : Char) : Char :=
  if 'A' ≤ c && c ≤ 'Z' then Char.ofNat (c.toNat + 32) else c

/-- ASCII lowercase of a string. -/
def lowerStr (s : String) : String :=
  String.mk (s.data.map lowerChar)

/-- Does `pat` occur at the head of `hay`? -/
def matchHere : List Char → List Char → Bool
  | [], _ => true
  | _ :: _, [] => false
  | p :: ps, c :: cs => p == c && matchHere ps cs

/-- Does `pat` occur anywhere in `hay`?  (Python's `pat in hay`.) -/
def hasSubstr (pat : List Char) : List Char → Bool
  | [] => matchHere pat []
  | c :: cs => matchHere pat (c :: cs) || hasSubstr pat cs

/-- Python's `pat in s` on strings. -/
def strHasSubstr (pat s : String) : Bool :=
  hasSubstr pat.data s.data

/-! ## Data model -/

/-- A pandas data frame: an ordered list of named columns.  Values are
rationals (see the header comment). -/
structure DataFrame where
  cols : List (String × List Rat)
deriving DecidableEq

/-- `df.columns`. -/
def DataFrame.columns (df : DataFrame) : List String :=
  df.cols.map Prod.fst

/-- `df.shape[0]`: the number of rows (length of the first column; a
rectangular frame has every column of this length). -/
def DataFrame.nRows (df : DataFrame) : Nat :=
  match df.cols with
  | [] => 0
  | c :: _ => c.2.length

/-- `df[name]`: the values of the column called `name`. -/
def DataFrame.col (df : DataFrame) (name : String) : List Rat :=
  match df.cols.find? (fun p => p.1 == name) with
  | some p => p.2
  | none => []

/-- Rectangularity: every column has `df.nRows` entries. -/
def DataFrame.WF (df : DataFrame) : Prop :=
  ∀ p ∈ df.cols, p.2.length = df.nRows

/-! ## Column governance (`hpml_train.py`, constants and steps 3-4)

`ALLOWED_FEATURES` is a Python `set`; its iteration order is fixed here
as the order of the literal, which only affects the order (never the
membership) of the governed feature list. -/

def ALLOWED_FEATURES : List String :=
  ["square_footage", "bedrooms", "bathrooms", "year_built",
   "lot_size", "distance_to_city_center", "school_rating"]

def forbidden_patterns : List String :=
  ["id", "index", "row", "listing"]

/-- `any(p in c.lower() for p in forbidden_patterns)`. -/
def containsForbidden (c : String) : Bool :=
  forbidden_patterns.any (fun p => strHasSubstr p (lowerStr c))

/-- Step 3: `[col for col in ALLOWED_FEATURES if col in df.columns]`. -/
def available_features (cols : List String) : List String :=
  ALLOWED_FEATURES.filter (fun c => cols.contains c)

/-- Step 4: drop the columns whose lowercased name contains a forbidden
pattern (`X_raw.drop(columns=leaked)`). -/
def dropLeaked (feats : List String) : List String :=
  feats.filter (fun c => !containsForbidden c)

/-! ## Target resolution (`hpml_train.py`, step 2)

`if target_name and target_name in df.columns` — note Python's
truthiness: a `None` or empty caller-supplied name is falsy and the
auto-detection chain runs instead. -/

def resolveTarget (cols : List String) (target_name : Option String) : String :=
  if (target_name.getD "" != "") && cols.contains (target_name.getD "") then
    target_name.getD ""
  else if cols.contains "price" then "price"
  else if cols.contains "sale_price" then "sale_price"
  else (cols.getLast?).getD ""

/-- The Target Resolver as the spec words it (§4.2): caller-supplied
name if it exists in the table, then "price", then "sale_price", then
the last column.  Compared against `resolveTarget` for claim C5. -/
def resolveTargetSpec (cols : List String) (target_name : Option String) : String :=
  if (match target_name with | some t => cols.contains t | none => false) then
    target_name.getD ""
  else if cols.contains "price" then "price"
  else if cols.contains "sale_price" then "sale_price"
  else (cols.getLast?).getD ""

/-! ## Numeric helpers (documented contracts of the numpy/sklearn calls) -/

/-- `y.mean()`: arithmetic mean (0 on an empty list, never reached by
the trainer, which requires ≥ 10 rows). -/
def listMean (l : List Rat) : Rat :=
  l.sum / l.length

/-- sklearn's `mean_absolute_error`: the mean of pairwise absolute
differences. -/
def mean_absolute_error (a b : List Rat) : Rat :=
  listMean (List.zipWith (fun x y => |x - y|) a b)

/-- numpy's `astype(int)`: truncation toward zero (C cast). -/
def truncToInt (q : Rat) : Int :=
  if 0 ≤ q then ⌊q⌋ else ⌈q⌉

/-- Rounding to the nearest integer (half up), the reading of the
spec's "integer-rounded" tested by claim C7. -/
def roundNearest (q : Rat) : Int :=
  ⌊q + 1/2⌋

/-! ## Artifacts -/

/-- The persisted Model Bundle, as the dictionary `joblib.dump` writes
and `evaluate` reads back: a field is `none` when its key is absent.
The fitted pipeline object itself is the opaque `predict` parameter of
`evaluate`. -/
structure Bundle where
  features_used : Option (List String) := none
  features : Option (List String) := none
  target : Option String := none
deriving DecidableEq

/-- The Model Metadata document (`model_meta.json`).  The fields `r2`
and `rmse` are ratios/square roots of opaque pipeline outputs and are
not modelled; no claim mentions them. -/
structure ModelMeta where
  target : String
  n_samples : Nat
  features_used : List String
  train_mean_price : Rat
  baseline_naive_mae : Rat
  mae : Rat
  coefficients : List (String × Rat)
  intercept : Option Rat
deriving DecidableEq

/-- The two artifacts a successful training run writes. -/
structure TrainResult where
  bundle : Bundle
  meta : ModelMeta
deriving DecidableEq

inductive TrainError
  | insufficientData
  | noUsableFeatures
deriving DecidableEq

/-! ## The trainer (`hpml_train`)

The pure computations of steps 2 and 5-10 (target resolution, fitting
via the opaque `fitPredict`, metrics, coefficient extraction, artifact
assembly) are factored into `trainSuccess`, the payload of a successful
run; `hpml_train` keeps the control flow of the source: the row-count
guard, then the empty-feature guard, then success. -/

/-- The artifacts a successful `hpml_train` run writes (steps 2, 5-10).
`np.full_like(y, train_mean_price)` is `List.replicate y.length _`;
the `try/except` of step 9 is the `match` on `coefExtract`, with the
caught-exception branch leaving the coefficient map empty and the
intercept `None`. -/
def trainSuccess (df : DataFrame) (target_name : Option String)
    (fitPredict : List String → List Rat)
    (coefExtract : Option (List (String × Rat) × Rat)) : TrainResult :=
  let target := resolveTarget df.columns target_name
  let y := df.col target
  let feats := dropLeaked (available_features df.columns)
  let preds := fitPredict feats
  let mae := mean_absolute_error y preds
  let train_mean_price := listMean y
  let naive_mae :=
    mean_absolute_error y (List.replicate y.length train_mean_price)
  let coefPair : List (String × Rat) × Option Rat :=
    match coefExtract with
    | some (cm, b) => (cm, some b)
    | none => ([], none)
  { bundle := { features_used := some feats, features := none,
                target := some target },
    meta := {
      target := target,
      n_samples := df.nRows,
      features_used := feats,
      train_mean_price := train_mean_price,
      baseline_naive_mae := naive_mae,
      mae := mae,
      coefficients := coefPair.1,
      intercept := coefPair.2 } }

def hpml_train (df : DataFrame) (target_name : Option String)
    (fitPredict : List String → List Rat)
    (coefExtract : Option (List (String × Rat) × Rat)) :
    Except TrainError TrainResult :=
  if df.nRows < 10 then
    .error .insufficientData
  else if (available_features df.columns).isEmpty then
    .error .noUsableFeatures
  else
    .ok (trainSuccess df target_name fitPredict coefExtract)

/-! ## The scorer (`evaluate`) -/

/-- `bundle.get("features_used") or bundle.get("features", [])` — the
Python `or` takes the right operand whenever the left one is falsy
(key absent, `None`, or an empty list). -/
def bundleFeatures (b : Bundle) : List String :=
  match b.features_used with
  | some l => if l = [] then b.features.getD [] else l
  | none => b.features.getD []

/-- The key-fallback rule as the spec words it (claim C8): the
alternate key is consulted exactly when the primary key is absent. -/
def bundleFeaturesSpec (b : Bundle) : List String :=
  match b.features_used with
  | some l => l
  | none => b.features.getD []

inductive ScoreError
  | missingFeatures (missing : List String)
deriving DecidableEq

/-- `df[feats]`: select the columns `feats`, in that order; pandas
raises a `KeyError` naming the absent columns when any is missing. -/
def selectColumns (df : DataFrame) (feats : List String) :
    Except (List String) DataFrame :=
  let missing := feats.filter (fun c => !(df.columns.contains c))
  if missing.isEmpty then
    .ok ⟨feats.map (fun c => (c, df.col c))⟩
  else
    .error missing

/-- The frame `df[features_used]` the scorer predicts on. -/
def scoringFrame (b : Bundle) (df : DataFrame) : DataFrame :=
  ⟨(bundleFeatures b).map (fun c => (c, df.col c))⟩

/-- The Prediction Export table (`Prediction_Result_with_price.csv`):
ids 1..n, the feature columns used, `preds.astype(int)`. -/
structure Export where
  ids : List Nat
  feature_cols : List (String × List Rat)
  predicted_price : List Int
deriving DecidableEq

/-- The Prediction Export a successful scoring run writes: ids
`range(1, len(df)+1)`, the selected feature columns, and
`preds.astype(int)`. -/
def scoreSuccess (b : Bundle) (df : DataFrame)
    (predict : DataFrame → List Rat) : Export :=
  { ids := List.range' 1 df.nRows,
    feature_cols := (scoringFrame b df).cols,
    predicted_price := (predict (scoringFrame b df)).map truncToInt }

def evaluate (b : Bundle) (df : DataFrame)
    (predict : DataFrame → List Rat) : Except ScoreError Export :=
  match selectColumns df (bundleFeatures b) with
  | .error missing => .error (.missingFeatures missing)
  | .ok X =>
    .ok {
      ids := List.range' 1 df.nRows,
      feature_cols := X.cols,
      predicted_price := (predict X).map truncToInt }

/-! ## Concrete data used by the witnesses -/

/-- A stand-in for the opaque fitted pipeline's in-sample predictions. -/
def wfit : List String → List Rat := fun _ => []

/-- A stand-in for the opaque fitted pipeline at scoring time. -/
def wpredict : DataFrame → List Rat := fun _ => []

/-- A 10-row training table with one allow-listed feature and a
constant `price` column. -/
def wdf : DataFrame :=
  ⟨[("square_footage", [1, 2, 3, 4, 5, 6, 7, 8, 9, 10]),
    ("price", [100, 100, 100, 100, 100, 100, 100, 100, 100, 100])]⟩

/-- A 2-row scoring table carrying `wdf`'s feature column. -/
def wdf2 : DataFrame := ⟨[("square_footage", [7, 8])]⟩

/-- A 3-row training table (below the 10-row floor). -/
def smallDf : DataFrame :=
  ⟨[("square_footage", [1, 2, 3]), ("price", [5, 6, 7])]⟩

/-- A 10-row training table with no allow-listed column at all. -/
def noFeatDf : DataFrame :=
  ⟨[("price", [1, 2, 3, 4, 5, 6, 7, 8, 9, 10])]⟩

/-! ## General lemmas -/

/-- No name on the allow-list contains a forbidden substring: the
step-4 double guard can never fire on allow-listed columns. -/
theorem allowed_not_forbidden :
    ∀ c ∈ ALLOWED_FEATURES, containsForbidden c = false := by decide

/-- Consequently the forbidden-pattern drop leaves the allow-listed
available features untouched. -/
theorem dropLeaked_available (cols : List String) :
    dropLeaked (available_features cols) = available_features cols := by
  unfold dropLeaked
  refine List.filter_eq_self.mpr ?_
  intro a ha
  have hA : a ∈ ALLOWED_FEATURES := List.mem_of_mem_filter ha
  simp [allowed_not_forbidden a hA]

theorem mem_available_features {c : String} {cols : List String} :
    c ∈ available_features cols ↔ c ∈ ALLOWED_FEATURES ∧ c ∈ cols := by
  unfold available_features
  simp [List.mem_filter]

theorem mem_dropLeaked_available (c : String) (cols : List String)
    (h : c ∈ dropLeaked (available_features cols)) :
    c ∈ ALLOWED_FEATURES ∧ c ∈ cols ∧ containsForbidden c = false := by
  rw [dropLeaked_available] at h
  rw [mem_available_features] at h
  exact ⟨h.1, h.2, allowed_not_forbidden c h.1⟩

theorem contains_iff (l : List String) (a : String) :
    l.contains a = true ↔ a ∈ l :=
  List.elem_iff

theorem contains_eq_false (l : List String) (a : String) (h : a ∉ l) :
    l.contains a = false := by
  cases hc : l.contains a
  · rfl
  · exact absurd ((contains_iff l a).mp hc) h

theorem getLastD_mem (l : List String) (h : l ≠ []) :
    (l.getLast?).getD "" ∈ l := by
  rw [List.getLast?_eq_getLast l h]
  exact List.getLast_mem h

theorem zipWith_replicate_right (f : Rat → Rat → Rat) (l : List Rat)
    (b : Rat) :
    List.zipWith f l (List.replicate l.length b) = l.map (fun a => f a b) := by
  induction l with
  | nil => rfl
  | cons x t ih => simp only [List.length_cons, List.replicate_succ,
      List.zipWith_cons_cons, List.map_cons, ih]

/-- Inversion for the trainer: a run returns `.ok` exactly when both
guards pass, and then the payload is `trainSuccess`. -/
theorem hpml_train_ok_iff (df : DataFrame) (tn : Option String)
    (fp : List String → List Rat) (ce : Option (List (String × Rat) × Rat))
    (r : TrainResult) :
    hpml_train df tn fp ce = .ok r ↔
      10 ≤ df.nRows ∧ available_features df.columns ≠ [] ∧
        r = trainSuccess df tn fp ce := by
  unfold hpml_train
  by_cases h10 : df.nRows < 10
  · rw [if_pos h10]
    constructor
    · intro h; cases h
    · rintro ⟨h, -, -⟩; exact absurd h (Nat.not_le.mpr h10)
  · rw [if_neg h10]
    by_cases hav : (available_features df.columns).isEmpty = true
    · rw [if_pos hav]
      rw [List.isEmpty_iff] at hav
      constructor
      · intro h; cases h
      · rintro ⟨-, hne, -⟩; exact absurd hav hne
    · rw [if_neg hav]
      rw [Bool.not_eq_true, List.isEmpty_eq_false] at hav
      constructor
      · intro h
        exact ⟨Nat.not_lt.mp h10, hav, (Except.ok.inj h).symm⟩
      · rintro ⟨-, -, rfl⟩; rfl

/-- The bundle written by a successful run carries exactly the
governed feature list under the primary key. -/
theorem trainSuccess_bundle (df : DataFrame) (tn : Option String)
    (fp : List String → List Rat)
    (ce : Option (List (String × Rat) × Rat)) :
    (trainSuccess df tn fp ce).bundle =
      { features_used := some (dropLeaked (available_features df.columns)),
        features := none,
        target := some (resolveTarget df.columns tn) } := rfl

/-- Whether or not the governed list is empty, the scorer's key lookup
on a freshly trained bundle recovers exactly that list. -/
theorem bundleFeatures_trainSuccess (df : DataFrame) (tn : Option String)
    (fp : List String → List Rat)
    (ce : Option (List (String × Rat) × Rat)) :
    bundleFeatures (trainSuccess df tn fp ce).bundle =
      dropLeaked (available_features df.columns) := by
  rw [trainSuccess_bundle]
  unfold bundleFeatures
  by_cases hf : dropLeaked (available_features df.columns) = []
  · simp [hf]
  · simp [hf]

theorem selectColumns_ok_inv {df : DataFrame} {feats : List String}
    {X : DataFrame} (h : selectColumns df feats = .ok X) :
    X = ⟨feats.map (fun c => (c, df.col c))⟩ := by
  unfold selectColumns at h
  by_cases hm : (feats.filter (fun c => !(df.columns.contains c))).isEmpty = true
  · rw [if_pos hm] at h
    exact (Except.ok.inj h).symm
  · rw [if_neg hm] at h
    cases h

/-- When every persisted feature is present in the scoring data, the
scorer succeeds and writes the export. -/
theorem evaluate_eq_ok (b : Bundle) (df : DataFrame)
    (predict : DataFrame → List Rat)
    (h : ∀ c ∈ bundleFeatures b, c ∈ df.columns) :
    evaluate b df predict = .ok (scoreSuccess b df predict) := by
  have hm : (bundleFeatures b).filter (fun c => !(df.columns.contains c)) = [] := by
    rw [List.filter_eq_nil_iff]
    intro a ha
    simp [h a ha]
  unfold evaluate selectColumns
  rw [hm]
  rfl

/-! ## Claim theorems -/

/-- C1: a training table with at least 10 rows and at least one
allow-listed, non-forbidden column trains successfully, and the
persisted Model Bundle's feature list (the `features_used` key) is a
subset of the allow-list and contains no name with a forbidden
substring. -/
theorem C1_training_governance (df : DataFrame) (tn : Option String)
    (fp : List String → List Rat) (ce : Option (List (String × Rat) × Rat))
    (h10 : 10 ≤ df.nRows)
    (hfeat : dropLeaked (available_features df.columns) ≠ []) :
    hpml_train df tn fp ce = .ok (trainSuccess df tn fp ce) ∧
    (trainSuccess df tn fp ce).bundle.features_used =
      some ((trainSuccess df tn fp ce).meta.features_used) ∧
    ∀ c ∈ (trainSuccess df tn fp ce).meta.features_used,
      c ∈ ALLOWED_FEATURES ∧ containsForbidden c = false := by
  have hav : available_features df.columns ≠ [] := by
    intro h
    rw [h] at hfeat
    exact hfeat rfl
  refine ⟨(hpml_train_ok_iff df tn fp ce _).mpr ⟨h10, hav, rfl⟩, rfl, ?_⟩
  intro c hc
  have h := mem_dropLeaked_available c df.columns hc
  exact ⟨h.1, h.2.2⟩

/-- C1 witness: the 10-row table `wdf` satisfies both hypotheses; its
trained bundle uses exactly `["square_footage"]`. -/
theorem C1_witness :
    hpml_train wdf none wfit none = .ok (trainSuccess wdf none wfit none) ∧
    (trainSuccess wdf none wfit none).meta.features_used =
      ["square_footage"] := by
  refine ⟨(C1_training_governance wdf none wfit none (by decide) (by decide)).1,
    by decide⟩

/-- C2: a training table with fewer than 10 rows fails with the
insufficient-data error — for every target name, fitting primitive and
coefficient-extraction outcome, so before any fitting is consulted —
and produces no artifact (`.ok` payload). -/
theorem C2_insufficient_data (df : DataFrame) (tn : Option String)
    (fp : List String → List Rat) (ce : Option (List (String × Rat) × Rat))
    (h : df.nRows < 10) :
    hpml_train df tn fp ce = .error .insufficientData ∧
    hpml_train df tn fp ce ≠ .ok (trainSuccess df tn fp ce) := by
  have he : hpml_train df tn fp ce = .error .insufficientData := by
    unfold hpml_train
    rw [if_pos h]
  refine ⟨he, ?_⟩
  rw [he]
  intro hk
  cases hk

/-- C2 witness: the 3-row table `smallDf`. -/
theorem C2_witness :
    hpml_train smallDf none wfit none = .error .insufficientData ∧
    hpml_train smallDf none wfit none ≠
      .ok (trainSuccess smallDf none wfit none) :=
  C2_insufficient_data smallDf none wfit none (by decide)

/-- C3: with at least 10 rows, training fails with the
no-usable-features error exactly when the governed feature list
(allow-list intersection followed by forbidden-pattern removal) is
empty, and in that case no artifact is produced. -/
theorem C3_no_usable_features (df : DataFrame) (tn : Option String)
    (fp : List String → List Rat) (ce : Option (List (String × Rat) × Rat))
    (h10 : 10 ≤ df.nRows) :
    (hpml_train df tn fp ce = .error .noUsableFeatures ↔
      dropLeaked (available_features df.columns) = []) ∧
    (dropLeaked (available_features df.columns) = [] →
      hpml_train df tn fp ce ≠ .ok (trainSuccess df tn fp ce)) := by
  rw [dropLeaked_available]
  have hiff : hpml_train df tn fp ce = .error .noUsableFeatures ↔
      available_features df.columns = [] := by
    unfold hpml_train
    rw [if_neg (Nat.not_lt.mpr h10)]
    by_cases hav : (available_features df.columns).isEmpty = true
    · rw [if_pos hav]
      rw [List.isEmpty_iff] at hav
      simp [hav]
    · rw [if_neg hav]
      rw [Bool.not_eq_true, List.isEmpty_eq_false] at hav
      constructor
      · intro h; cases h
      · intro h; exact absurd h hav
  refine ⟨hiff, fun hemp => ?_⟩
  rw [hiff.mpr hemp]
  intro hk
  cases hk

/-- C3 witness: `noFeatDf` has 10 rows and no allow-listed column, so
training fails with the no-usable-features error. -/
theorem C3_witness :
    (hpml_train noFeatDf none wfit none = .error .noUsableFeatures ↔
      dropLeaked (available_features noFeatDf.columns) = []) ∧
    (dropLeaked (available_features noFeatDf.columns) = [] →
      hpml_train noFeatDf none wfit none ≠
        .ok (trainSuccess noFeatDf none wfit none)) :=
  C3_no_usable_features noFeatDf none wfit none (by decide)

/-- C5: on a table with at least one column and no empty-named column
(pandas never produces one), target resolution follows exactly the
spec's order, always returns a column of the table, and a
caller-supplied name that exists in the table wins over "price". -/
theorem C5_target_resolution (cols : List String) (tn : Option String)
    (hne : cols ≠ []) (hempty : "" ∉ cols) :
    resolveTarget cols tn = resolveTargetSpec cols tn ∧
    resolveTarget cols tn ∈ cols ∧
    ∀ t, tn = some t → t ∈ cols → resolveTarget cols tn = t := by
  have hcontains : cols.contains "" = false := contains_eq_false cols "" hempty
  refine ⟨?_, ?_, ?_⟩
  · cases tn with
    | none =>
      unfold resolveTarget resolveTargetSpec
      rfl
    | some t =>
      by_cases ht : t = ""
      · subst ht
        unfold resolveTarget resolveTargetSpec
        simp [hcontains, hempty]
      · unfold resolveTarget resolveTargetSpec
        simp [ht]
  · unfold resolveTarget
    by_cases h1 : ((tn.getD "" != "") && cols.contains (tn.getD "")) = true
    · rw [if_pos h1]
      have := (Bool.and_eq_true _ _).mp h1
      exact (contains_iff cols _).mp this.2
    · rw [if_neg h1]
      by_cases h2 : cols.contains "price" = true
      · rw [if_pos h2]
        exact (contains_iff cols _).mp h2
      · rw [if_neg h2]
        by_cases h3 : cols.contains "sale_price" = true
        · rw [if_pos h3]
          exact (contains_iff cols _).mp h3
        · rw [if_neg h3]
          exact getLastD_mem cols hne
  · intro t htn hmem
    subst htn
    have ht : t ≠ "" := fun h => hempty (h ▸ hmem)
    unfold resolveTarget
    have h1 : (((some t).getD "" != "") && cols.contains ((some t).getD ""))
        = true := by
      rw [Option.getD_some]
      exact (Bool.and_eq_true _ _).mpr
        ⟨by simp [ht], (contains_iff cols t).mpr hmem⟩
    rw [if_pos h1, Option.getD_some]

/-- C5 witness: on the table `["bedrooms", "price"]` the valid
caller-supplied name "bedrooms" wins over the "price" column, and the
resolved target is a column of the table. -/
theorem C5_witness :
    resolveTarget ["bedrooms", "price"] (some "bedrooms") = "bedrooms" ∧
    resolveTarget ["bedrooms", "price"] (some "bedrooms") ∈
      ["bedrooms", "price"] := by
  have h := C5_target_resolution ["bedrooms", "price"] (some "bedrooms")
    (by decide) (by decide)
  exact ⟨h.2.2 "bedrooms" rfl (by decide), h.2.1⟩

/-- A bundle requiring two features, for the C4 witness. -/
def c4bundle : Bundle :=
  { features_used := some ["square_footage", "bedrooms"] }

/-- 3-row scoring data lacking the `bedrooms` column. -/
def c4df : DataFrame := ⟨[("square_footage", [1, 2, 3])]⟩

/-- C4: when the scoring data lacks some of the persisted features,
the scorer fails before prediction with an error carrying exactly the
missing column names, and no export (`.ok` payload) is produced. -/
theorem C4_missing_feature (b : Bundle) (df : DataFrame)
    (predict : DataFrame → List Rat)
    (h : (bundleFeatures b).filter (fun c => !(df.columns.contains c)) ≠ []) :
    evaluate b df predict =
      .error (.missingFeatures
        ((bundleFeatures b).filter (fun c => !(df.columns.contains c)))) ∧
    (∀ c, c ∈ (bundleFeatures b).filter (fun c => !(df.columns.contains c)) ↔
      c ∈ bundleFeatures b ∧ c ∉ df.columns) ∧
    evaluate b df predict ≠ .ok (scoreSuccess b df predict) := by
  have hm : ((bundleFeatures b).filter
      (fun c => !(df.columns.contains c))).isEmpty = false := by
    rw [List.isEmpty_eq_false]
    exact h
  have he : evaluate b df predict =
      .error (.missingFeatures
        ((bundleFeatures b).filter (fun c => !(df.columns.contains c)))) := by
    unfold evaluate selectColumns
    rw [if_neg (by rw [hm]; intro hk; cases hk)]
  refine ⟨he, ?_, ?_⟩
  · intro c
    rw [List.mem_filter]
    constructor
    · rintro ⟨h1, h2⟩
      rw [Bool.not_eq_eq_eq_not, Bool.not_true] at h2
      exact ⟨h1, fun hmem => by rw [(contains_iff _ _).mpr hmem] at h2; cases h2⟩
    · rintro ⟨h1, h2⟩
      exact ⟨h1, by rw [contains_eq_false df.columns c h2]; rfl⟩
  · rw [he]
    intro hk
    cases hk

/-- C4 witness: scoring `c4df` (which lacks `bedrooms`) against
`c4bundle` fails with an error naming exactly `bedrooms`. -/
theorem C4_witness :
    evaluate c4bundle c4df wpredict =
      .error (.missingFeatures ["bedrooms"]) := by
  have h := (C4_missing_feature c4bundle c4df wpredict (by decide)).1
  rw [h]
  rfl

/-- C6 (round trip): a bundle produced by a successful training run
scores without the missing-feature error on any new data that carries
the training data's allow-listed feature columns. -/
theorem C6_round_trip (df df2 : DataFrame) (tn : Option String)
    (fp : List String → List Rat) (ce : Option (List (String × Rat) × Rat))
    (r : TrainResult) (predict : DataFrame → List Rat)
    (h : hpml_train df tn fp ce = .ok r)
    (hcols : ∀ c, c ∈ df.columns → c ∈ ALLOWED_FEATURES → c ∈ df2.columns) :
    evaluate r.bundle df2 predict = .ok (scoreSuccess r.bundle df2 predict) := by
  obtain ⟨-, -, rfl⟩ := (hpml_train_ok_iff df tn fp ce r).mp h
  apply evaluate_eq_ok
  intro c hc
  rw [bundleFeatures_trainSuccess] at hc
  have hm := mem_dropLeaked_available c df.columns hc
  exact hcols c hm.2.1 hm.1

/-- C6 witness: the bundle trained on `wdf` scores on `wdf2`, which
carries the same feature column with different values. -/
theorem C6_witness :
    evaluate (trainSuccess wdf none wfit none).bundle wdf2 wpredict =
      .ok (scoreSuccess (trainSuccess wdf none wfit none).bundle wdf2
        wpredict) :=
  C6_round_trip wdf wdf2 none wfit none (trainSuccess wdf none wfit none)
    wpredict (by rfl) (by decide)

/-- The scoring bundle/data/pipeline for claim C7 — the opaque
pipeline predicts the non-half value 27/10 on the single input row. -/
def c7bundle : Bundle := { features_used := some ["square_footage"] }

def c7df : DataFrame := ⟨[("square_footage", [1])]⟩

def c7predict : DataFrame → List Rat := fun _ => [27/10]

/-- The export `evaluate` actually writes for the C7 scenario: the
predicted value 27/10 is exported as 2, not as the nearest integer. -/
def c7export : Export :=
  { ids := [1],
    feature_cols := [("square_footage", [1])],
    predicted_price := [2] }

/-- The concrete C7 scoring run, evaluated: the export holds 2 where
the pipeline predicted 27/10. -/
theorem c7_run : evaluate c7bundle c7df c7predict = .ok c7export := by
  have h1 : evaluate c7bundle c7df c7predict =
      .ok (scoreSuccess c7bundle c7df c7predict) :=
    evaluate_eq_ok c7bundle c7df c7predict (by decide)
  have h2 : scoreSuccess c7bundle c7df c7predict = c7export := by
    unfold scoreSuccess c7export
    norm_num [scoringFrame, c7bundle, c7df, c7predict, bundleFeatures,
      DataFrame.nRows, DataFrame.col, truncToInt]
  rw [h1, h2]

/-- C7 counterexample: `preds.astype(int)` truncates toward zero, so a
predicted value of 27/10 is exported as 2 while its nearest integer is
3 — the claim's "rounded to the nearest integer" fails on the code. -/
theorem C7_counterexample :
    evaluate c7bundle c7df c7predict = .ok c7export ∧
    c7export.predicted_price ≠
      (c7predict (scoringFrame c7bundle c7df)).map roundNearest := by
  refine ⟨c7_run, ?_⟩
  show [(2:Int)] ≠ (c7predict (scoringFrame c7bundle c7df)).map roundNearest
  norm_num [c7predict, roundNearest]

/-- C7 (amended): every predicted value written to the export equals
the pipeline's predicted value truncated toward zero
(`astype(int)`). -/
theorem C7_truncation (b : Bundle) (df : DataFrame)
    (predict : DataFrame → List Rat) (ex : Export)
    (h : evaluate b df predict = .ok ex) :
    ex.predicted_price = (predict (scoringFrame b df)).map truncToInt := by
  unfold evaluate at h
  cases hsel : selectColumns df (bundleFeatures b) with
  | error m =>
    rw [hsel] at h
    cases h
  | ok X =>
    rw [hsel] at h
    have hX : X = scoringFrame b df := selectColumns_ok_inv hsel
    rw [← Except.ok.inj h, hX]

/-- C7 amended-claim witness: the concrete C7 run exports exactly the
truncations of the pipeline's predictions. -/
theorem C7_truncation_witness :
    c7export.predicted_price =
      (c7predict (scoringFrame c7bundle c7df)).map truncToInt :=
  C7_truncation c7bundle c7df c7predict c7export c7_run

/-- A bundle whose primary key is present but holds an empty list,
while the legacy key holds a feature — the case separating the code
from the claim's "exactly when the primary key is absent". -/
def c8fallback : Bundle :=
  { features_used := some [], features := some ["bedrooms"] }

/-- A bundle with a nonempty primary key and a different legacy key,
for the C8 witness. -/
def c8primary : Bundle :=
  { features_used := some ["bedrooms"], features := some ["lot_size"] }

/-- C8 counterexample: on a bundle whose `features_used` key is
present but empty, the scorer's Python `or` still falls back to the
legacy `features` key — the reading prescribed by the claim (fallback
only on an absent primary key) gives a different feature list. -/
theorem C8_counterexample :
    bundleFeatures c8fallback = ["bedrooms"] ∧
    bundleFeaturesSpec c8fallback = [] ∧
    bundleFeatures c8fallback ≠ bundleFeaturesSpec c8fallback := by
  refine ⟨rfl, rfl, ?_⟩
  decide

/-- C8 (amended): the scorer reads the feature list from
`features_used` whenever that key holds a nonempty list, and falls
back to the legacy `features` key exactly when `features_used` is
absent or holds an empty (falsy) value. -/
theorem C8_fallback_rule (b : Bundle) :
    (∀ l, b.features_used = some l → l ≠ [] → bundleFeatures b = l) ∧
    (b.features_used = none ∨ b.features_used = some [] →
      bundleFeatures b = b.features.getD []) := by
  constructor
  · intro l hl hne
    unfold bundleFeatures
    rw [hl]
    simp [hne]
  · intro h
    unfold bundleFeatures
    rcases h with h | h <;> rw [h]
    rfl

/-- C8 witness: on a bundle carrying a nonempty primary key the scorer
uses it, ignoring the legacy key. -/
theorem C8_witness : bundleFeatures c8primary = ["bedrooms"] :=
  (C8_fallback_rule c8primary).1 ["bedrooms"] rfl (by decide)

/-- C9: the persisted `train_mean_price` is the arithmetic mean of the
resolved target column, and the naive baseline error is the mean
absolute deviation from that mean (the MAE of always predicting the
training mean). -/
theorem C9_mean_and_baseline (df : DataFrame) (tn : Option String)
    (fp : List String → List Rat) (ce : Option (List (String × Rat) × Rat))
    (r : TrainResult) (h : hpml_train df tn fp ce = .ok r) :
    r.meta.train_mean_price =
      listMean (df.col (resolveTarget df.columns tn)) ∧
    r.meta.baseline_naive_mae =
      listMean ((df.col (resolveTarget df.columns tn)).map
        (fun v => |v - listMean (df.col (resolveTarget df.columns tn))|)) := by
  obtain ⟨-, -, rfl⟩ := (hpml_train_ok_iff df tn fp ce r).mp h
  refine ⟨rfl, ?_⟩
  show mean_absolute_error (df.col (resolveTarget df.columns tn))
      (List.replicate (df.col (resolveTarget df.columns tn)).length
        (listMean (df.col (resolveTarget df.columns tn)))) = _
  unfold mean_absolute_error
  rw [zipWith_replicate_right]

/-- C9 witness: on `wdf` (constant price 100) the persisted mean is
100 and the naive baseline error is 0. -/
theorem C9_witness :
    (trainSuccess wdf none wfit none).meta.train_mean_price = 100 ∧
    (trainSuccess wdf none wfit none).meta.baseline_naive_mae = 0 := by
  have h := C9_mean_and_baseline wdf none wfit none
    (trainSuccess wdf none wfit none) (by rfl)
  have hy : wdf.col (resolveTarget wdf.columns none) =
      [100, 100, 100, 100, 100, 100, 100, 100, 100, 100] := rfl
  have hm : listMean (wdf.col (resolveTarget wdf.columns none)) = 100 := by
    rw [hy]
    norm_num [listMean]
  refine ⟨h.1.trans hm, h.2.trans ?_⟩
  simp only [hy, hm]
  norm_num [listMean]

/-- C10: when coefficient extraction fails (the caught branch of the
`try/except`, modelled by `coefExtract = none`), a training run whose
guards pass still succeeds and writes both artifacts, with an empty
coefficient map (and a `None` intercept) in the metadata. -/
theorem C10_coefficient_failure (df : DataFrame) (tn : Option String)
    (fp : List String → List Rat)
    (h10 : 10 ≤ df.nRows)
    (hfeat : available_features df.columns ≠ []) :
    hpml_train df tn fp none = .ok (trainSuccess df tn fp none) ∧
    (trainSuccess df tn fp none).meta.coefficients = [] ∧
    (trainSuccess df tn fp none).meta.intercept = none ∧
    (trainSuccess df tn fp none).bundle.features_used =
      some (dropLeaked (available_features df.columns)) := by
  exact ⟨(hpml_train_ok_iff df tn fp none _).mpr ⟨h10, hfeat, rfl⟩,
    rfl, rfl, rfl⟩

/-- C10 witness: training `wdf` with a failing coefficient extraction
still succeeds, with an empty coefficient map. -/
theorem C10_witness :
    hpml_train wdf none wfit none = .ok (trainSuccess wdf none wfit none) ∧
    (trainSuccess wdf none wfit none).meta.coefficients = [] ∧
    (trainSuccess wdf none wfit none).meta.intercept = none ∧
    (trainSuccess wdf none wfit none).bundle.features_used =
      some (dropLeaked (available_features wdf.columns)) :=
  C10_coefficient_failure wdf none wfit (by decide) (by decide)

end HSBC
